import Mathlib

/-!
Shallow embedding of the MCP streamable-HTTP greeting server
(class MCPServer in the server source file, plus the express entry file).

Modelling conventions, stated once:
 * JavaScript string truthiness (`if (sessionId)`, `if (!name)`) is modelled
   by `strTruthy`: an absent header (`none`) and the empty string are both
   falsy, exactly as in the source.
 * `randomUUID()` results are passed in as explicit string parameters
   (`freshId`, `errId`, `uuid`): each call site of the embedding receives the
   random value that the run would have drawn.
 * The SDK transport (`StreamableHTTPServerTransport`) is the external
   collaborator of the spec's Transport interface.  Its one behaviour the
   embedding relies on is from that interface: handling a DELETE closes the
   transport, which fires the `onclose` hook registered at lines 186-193 of
   the source (`transportOnClose` below).  Requests successfully delegated to
   a transport are modelled as the `Body.handled` response.
 * The JS object `this.transports` is an association list keyed by session
   id; `delete this.transports[sid]` is `List.filter` on the key.
-/

deriving instance DecidableEq for Except

namespace GreetMcp

/-- JavaScript truthiness of an optional string: `undefined` and the empty
string are falsy, every other string is truthy. -/
def strTruthy : Option String → Bool
  | none => false
  | some s => !(s == "")

/-- JavaScript string interpolation of a possibly-undefined value: template
literals render `undefined` as the text "undefined". -/
def jsToString : Option String → String
  | none => "undefined"
  | some s => s

/-- One session's transport handle.  `sendOk` models whether a send on this
transport succeeds or errors (transport health at delivery time). -/
structure Transport where
  sessionId : String
  sendOk : Bool
deriving DecidableEq

/-- State of the MCPServer class: its mutable fields from the source
(lines 15-19).  `listHandlerRegistered` models whether the ListTools handler
is currently registered on the SDK server handle. -/
structure MCPServer where
  transports : List (String × Transport)
  singleGreetToolName : String
  multiGreetToolName : String
  listHandlerRegistered : Bool
deriving DecidableEq

/-- `this.transports[sessionId]` lookup. -/
def lookupTransport (ts : List (String × Transport)) (sid : String) : Option Transport :=
  (ts.find? (fun p => p.1 == sid)).map (fun p => p.2)

/-- The server right after the constructor ran `configureTools`
(initial field values from lines 15-19, handler registered at line 65). -/
def initialServer : MCPServer :=
  { transports := []
    singleGreetToolName := "single-greet"
    multiGreetToolName := "multi-great"
    listHandlerRegistered := true }

/-- The error object inside a JSON-RPC error body. -/
structure ErrorObj where
  code : Int
  message : String
deriving DecidableEq

/-- A JSON-RPC error body as `createErrorResponse` builds it. -/
structure JSONRPCError where
  jsonrpc : String
  error : ErrorObj
  id : String
deriving DecidableEq

/-- `createErrorResponse` (source lines 256-265): fixed code -32000, fixed
jsonrpc version, and a freshly drawn random UUID as the id (the failing
request's own id is not consulted -- the function does not receive it). -/
def createErrorResponse (freshUuid : String) (message : String) : JSONRPCError :=
  { jsonrpc := "2.0"
    error := { code := -32000, message := message }
    id := freshUuid }

/-- An HTTP response body as the three verb handlers produce it:
a JSON-RPC error body, a plain-text body, or delegation of the request to a
transport (`transport.handleRequest`). -/
inductive Body
  | json (e : JSONRPCError)
  | text (s : String)
  | handled
deriving DecidableEq

/-- Status code plus body. -/
structure HttpResponse where
  status : Nat
  body : Body
deriving DecidableEq

/-- `handlePostRequest` (source lines 161-211).  Inputs: the session-id
header, whether the body is an initialization message (`isInitializeRequest`),
the UUID a new session would receive, and the UUID an error body would
receive.  Branch order is the source's: resolvable session first, then
initialization, else the 400 JSON error. -/
def handlePostRequest (srv : MCPServer) (sid : Option String) (isInit : Bool)
    (freshId errId : String) : MCPServer × HttpResponse :=
  if strTruthy sid && (lookupTransport srv.transports (sid.getD "")).isSome then
    (srv, ⟨200, Body.handled⟩)
  else if !(strTruthy sid) && isInit then
    ({ srv with
        transports := srv.transports ++ [(freshId, ⟨freshId, true⟩)] },
      ⟨200, Body.handled⟩)
  else
    (srv, ⟨400, Body.json (createErrorResponse errId "Bad Request: invalid session ID or method.")⟩)

/-- `handleGetRequest` (source lines 135-158): missing or unresolved session
id yields the 400 JSON error, otherwise the request is handed to the
session's transport to begin the SSE stream. -/
def handleGetRequest (srv : MCPServer) (sid : Option String) (errId : String) : HttpResponse :=
  if !(strTruthy sid) || (lookupTransport srv.transports (sid.getD "")).isNone then
    ⟨400, Body.json (createErrorResponse errId "Bad Request: invalid session ID or method.")⟩
  else
    ⟨200, Body.handled⟩

/-- The `transport.onclose` hook (source lines 186-193): when the transport
carries a session id still present in the table, remove that entry. -/
def transportOnClose (srv : MCPServer) (sid : Option String) : MCPServer :=
  match sid with
  | some s =>
      if (lookupTransport srv.transports s).isSome then
        { srv with transports := srv.transports.filter (fun p => !(p.1 == s)) }
      else srv
  | none => srv

/-- `handleDeleteRequest` (source lines 212-228): missing or unresolved
session id yields a plain-text 400 response; otherwise the request is
delegated to the transport, whose closure fires `transportOnClose`. -/
def handleDeleteRequest (srv : MCPServer) (sid : Option String) : MCPServer × HttpResponse :=
  if !(strTruthy sid) || (lookupTransport srv.transports (sid.getD "")).isNone then
    (srv, ⟨400, Body.text "Invalid or missing session ID"⟩)
  else
    (transportOnClose srv sid, ⟨200, Body.handled⟩)

/-- The input schema both tool descriptors declare (source lines 35-44 and
50-59): an object with one string property, `name`, required. -/
structure InputSchema where
  type : String
  propNames : List String
  required : List String
deriving DecidableEq

/-- A tool descriptor as returned by the list-tools handler. -/
structure ToolDesc where
  name : String
  description : String
  inputSchema : InputSchema
deriving DecidableEq

/-- The single-greet tool descriptor (source lines 32-45), parameterised by
the freshly drawn tool name. -/
def singleGreetTool (toolName : String) : ToolDesc :=
  { name := toolName
    description := "Greet the user once."
    inputSchema := { type := "object", propNames := ["name"], required := ["name"] } }

/-- The multi-greet tool descriptor (source lines 47-60). -/
def multiGreetTool (toolName : String) : ToolDesc :=
  { name := toolName
    description := "Greet the user multiple times with delay in between."
    inputSchema := { type := "object", propNames := ["name"], required := ["name"] } }

/-- The payload of a list-tools response. -/
structure ListToolsResult where
  tools : List ToolDesc
deriving DecidableEq

/-- The ListToolsRequestSchema handler registered by `setToolSchema` (source
lines 29-64).  Its first statement reassigns `this.singleGreetToolName` to a
fresh random name; the response then carries the two current descriptors. -/
def listToolsHandler (srv : MCPServer) (uuid : String) : MCPServer × ListToolsResult :=
  let newName := "single-greeting-" ++ uuid
  ({ srv with singleGreetToolName := newName },
    ⟨[singleGreetTool newName, multiGreetTool srv.multiGreetToolName]⟩)

/-- One interim logging-message payload as the multi-greet branch sends it
(source lines 109-118). -/
structure LogMessage where
  method : String
  level : String
  data : String
deriving DecidableEq

/-- One content item of a tool-call result. -/
structure CallContent where
  type : String
  text : String
deriving DecidableEq

/-- A tool-call result body. -/
structure CallResult where
  content : List CallContent
deriving DecidableEq

/-- A JavaScript arguments object for the greet tools: `name` may be absent
(destructuring then yields `undefined`). -/
structure ArgsObj where
  name : Option String
deriving DecidableEq

/-- The CallToolRequestSchema handler (source lines 78-131).  Returns the
interim notifications sent through the caller's session, in emission order,
paired with either the result returned or the message of the Error thrown.
Each `await sendNotification` completes before the next statement runs, so
the list order is the emission order. -/
def callToolHandler (srv : MCPServer) (args : Option ArgsObj) (toolName : Option String) :
    List LogMessage × Except String CallResult :=
  match args with
  | none => ([], Except.error "arguments undefined")
  | some a =>
    if !(strTruthy toolName) then
      ([], Except.error "tool name undefined")
    else if toolName.getD "" == srv.singleGreetToolName then
      if !(strTruthy a.name) then
        ([], Except.error "Name to greet undefined.")
      else
        ([], Except.ok ⟨[⟨"text", "Hey " ++ jsToString a.name ++ "! Welcome to itsuki's world!"⟩]⟩)
    else if toolName.getD "" == srv.multiGreetToolName then
      ([⟨"notifications/message", "info", "First greet to " ++ jsToString a.name⟩,
        ⟨"notifications/message", "info", "Second greet to " ++ jsToString a.name⟩],
        Except.ok ⟨[⟨"text", "Hope you enjoy your day!"⟩]⟩)
    else
      ([], Except.error "Tool not found")

/-- What the calling session observes from one tool call, in delivery
order: interim logging messages, then either the terminal result's content
or the thrown error surfaced by the SDK. -/
inductive SessionEvent
  | logMessage (data : String)
  | toolResult (text : String)
  | errorThrown (message : String)
deriving DecidableEq

/-- The observable trace of one tool call: the interim notifications in
emission order, followed by the terminal outcome.  Ordering is forced by the
source: each notification is awaited before the next statement, and the
handler's return value is produced only after both awaits. -/
def callToolTrace (srv : MCPServer) (args : Option ArgsObj) (toolName : Option String) :
    List SessionEvent :=
  let r := callToolHandler srv args toolName
  r.1.map (fun m => SessionEvent.logMessage m.data) ++
    match r.2 with
    | Except.ok res => res.content.map (fun c => SessionEvent.toolResult c.text)
    | Except.error m => [SessionEvent.errorThrown m]

/-- Outcome of one send on one transport (`transport.send` inside
`sendNotification`, source lines 248-254). -/
inductive SendOutcome
  | delivered
  | failed
deriving DecidableEq

/-- `sendNotification` on one transport: wraps the payload and sends it;
the outcome depends only on that transport's own health. -/
def sendNotification (t : Transport) : SendOutcome :=
  if t.sendOk then SendOutcome.delivered else SendOutcome.failed

/-- One recorded delivery attempt of the tools-changed broadcast. -/
structure Attempt where
  sid : String
  outcome : SendOutcome
deriving DecidableEq

/-- The broadcast loop of the interval callback (source lines 70-76):
`Object.values(this.transports).forEach` calling `sendNotification` on each.
`sendNotification` is async and its promise is not awaited, so a failing
send never throws into the loop: iteration always continues. -/
def broadcastToAll : List (String × Transport) → List Attempt
  | [] => []
  | p :: rest => ⟨p.1, sendNotification p.2⟩ :: broadcastToAll rest

/-- `setToolSchema` (source lines 29, 65, 68): registers (or re-registers)
the ListTools handler on the SDK server.  It does not run the handler, so no
tool name changes here. -/
def setToolSchema (srv : MCPServer) : MCPServer :=
  { srv with listHandlerRegistered := true }

/-- One tick of the 5-second interval callback (source lines 67-77):
re-register the list handler, then broadcast the tools-changed notification
to every transport currently in the table. -/
def toolIntervalTick (srv : MCPServer) : MCPServer × List Attempt :=
  let srv := setToolSchema srv
  (srv, broadcastToAll srv.transports)

/-- Whether a response body is a structured JSON-RPC error body. -/
def isJsonBody : Body → Bool
  | Body.json _ => true
  | _ => false

/-- A concrete transport for the session id "abc", used to evaluate the
handlers on a populated session table. -/
def abcTransport : Transport := ⟨"abc", true⟩

/-- A concrete server holding exactly one session, "abc". -/
def serverWithAbc : MCPServer :=
  { initialServer with transports := [("abc", abcTransport)] }

/-- Removing a key by filtering makes the subsequent lookup fail. -/
theorem lookupTransport_filter_self (ts : List (String × Transport)) (s : String) :
    lookupTransport (ts.filter (fun p => !(p.1 == s))) s = none := by
  simp [lookupTransport, Option.map_eq_none, List.find?_eq_none, List.mem_filter]

/-- The broadcast loop is the pointwise send over the table. -/
theorem broadcastToAll_eq_map (ts : List (String × Transport)) :
    broadcastToAll ts = ts.map (fun p => ⟨p.1, sendNotification p.2⟩) := by
  induction ts with
  | nil => rfl
  | cons p rest ih => simp [broadcastToAll, ih]

/-- The broadcast records one attempt per session, keyed like the table. -/
theorem broadcastToAll_map_sid (ts : List (String × Transport)) :
    (broadcastToAll ts).map Attempt.sid = ts.map Prod.fst := by
  simp [broadcastToAll_eq_map]

/-- Claim C1: every POST request that carries no (truthy) session identifier
and is not an initialization message, or carries a session identifier that
does not resolve in the session table, gets the structured 400 JSON-RPC
InvalidSession error response and leaves the server state unchanged (no
crash, no silent success); the GET (stream-subscribe) path returns the same
structured error in those cases. -/
theorem invalid_session_rejected (srv : MCPServer) (sid : Option String) (isInit : Bool)
    (freshId errId : String)
    (h : (strTruthy sid = false ∧ isInit = false) ∨
         (strTruthy sid = true ∧ lookupTransport srv.transports (sid.getD "") = none)) :
    handlePostRequest srv sid isInit freshId errId =
      (srv, ⟨400, Body.json (createErrorResponse errId "Bad Request: invalid session ID or method.")⟩) ∧
    handleGetRequest srv sid errId =
      ⟨400, Body.json (createErrorResponse errId "Bad Request: invalid session ID or method.")⟩ := by
  rcases h with ⟨h1, h2⟩ | ⟨h1, h2⟩ <;>
    simp [handlePostRequest, handleGetRequest, h1, h2]

/-- Witness for C1: a POST and a GET carrying the unknown session id
"nosuch" against the freshly constructed server are both answered with the
400 structured error. -/
theorem invalid_session_rejected_witness :
    handlePostRequest initialServer (some "nosuch") false "f" "e" =
      (initialServer, ⟨400, Body.json (createErrorResponse "e" "Bad Request: invalid session ID or method.")⟩) ∧
    handleGetRequest initialServer (some "nosuch") "e" =
      ⟨400, Body.json (createErrorResponse "e" "Bad Request: invalid session ID or method.")⟩ :=
  invalid_session_rejected initialServer (some "nosuch") false "f" "e"
    (Or.inr ⟨by decide, by decide⟩)

/-- Claim C2 counterexample: terminating the session "abc" twice in
sequence is NOT error-free: the first DELETE succeeds (the request is
delegated to the transport), but the second DELETE on the same identifier
returns the 400 plain-text error response, refuting the claim that the
second invocation never produces an error response. -/
theorem second_terminate_errors :
    (handleDeleteRequest serverWithAbc (some "abc")).2 = ⟨200, Body.handled⟩ ∧
    (handleDeleteRequest (handleDeleteRequest serverWithAbc (some "abc")).1 (some "abc")).2 =
      ⟨400, Body.text "Invalid or missing session ID"⟩ := by decide

/-- Claim C2 as amended: for a resolvable session identifier, the first
DELETE succeeds and removes the session from the table; the second DELETE on
the same identifier finds no session and returns the 400 error response
"Invalid or missing session ID"; the session is absent after both calls. -/
theorem terminate_twice (srv : MCPServer) (s : String) (hs : s ≠ "")
    (hin : (lookupTransport srv.transports s).isSome = true) :
    (handleDeleteRequest srv (some s)).2 = ⟨200, Body.handled⟩ ∧
    lookupTransport (handleDeleteRequest srv (some s)).1.transports s = none ∧
    (handleDeleteRequest (handleDeleteRequest srv (some s)).1 (some s)).2 =
      ⟨400, Body.text "Invalid or missing session ID"⟩ ∧
    lookupTransport
      (handleDeleteRequest (handleDeleteRequest srv (some s)).1 (some s)).1.transports s = none := by
  have hTrue : strTruthy (some s) = true := by simp [strTruthy, hs]
  have hne : lookupTransport srv.transports s ≠ none := by
    intro hnone
    rw [hnone] at hin
    simp at hin
  have h1 : handleDeleteRequest srv (some s) =
      ({ srv with transports := srv.transports.filter (fun p => !(p.1 == s)) },
        ⟨200, Body.handled⟩) := by
    simp [handleDeleteRequest, hTrue, hin, transportOnClose, hne]
  have h3 : lookupTransport (srv.transports.filter (fun p => !(p.1 == s))) s = none :=
    lookupTransport_filter_self srv.transports s
  refine ⟨by rw [h1], by rw [h1]; exact h3, ?_, ?_⟩ <;>
    rw [h1] <;> simp [handleDeleteRequest, hTrue, h3]

/-- Witness for C2 as amended: evaluated on the concrete one-session
server. -/
theorem terminate_twice_witness :
    (handleDeleteRequest serverWithAbc (some "abc")).2 = ⟨200, Body.handled⟩ ∧
    lookupTransport (handleDeleteRequest serverWithAbc (some "abc")).1.transports "abc" = none ∧
    (handleDeleteRequest (handleDeleteRequest serverWithAbc (some "abc")).1 (some "abc")).2 =
      ⟨400, Body.text "Invalid or missing session ID"⟩ ∧
    lookupTransport
      (handleDeleteRequest (handleDeleteRequest serverWithAbc (some "abc")).1 (some "abc")).1.transports
      "abc" = none :=
  terminate_twice serverWithAbc "abc" (by decide) (by decide)

/-- Claim C3 counterexample: serving a tool-list request is NOT state
preserving: on the freshly constructed server (single tool name
"single-greet") the handler reassigns the single-greet tool name to
"single-greeting-<uuid>", so the resulting server differs from the input
server. -/
theorem list_request_mutates_server :
    (listToolsHandler initialServer "0000").1 ≠ initialServer := by decide

/-- Claim C3 as amended: serving a tool-list request returns the snapshot
of both tool descriptors, but first mutates the server: the single-greet
tool name is reassigned to the fresh "single-greeting-<uuid>"; the session
table, the multi-greet tool name and the handler registration are the only
fields left unchanged, and the returned snapshot carries the new name. -/
theorem list_request_snapshot (srv : MCPServer) (uuid : String) :
    (listToolsHandler srv uuid).1 =
      { srv with singleGreetToolName := "single-greeting-" ++ uuid } ∧
    (listToolsHandler srv uuid).2 =
      ⟨[singleGreetTool ("single-greeting-" ++ uuid), multiGreetTool srv.multiGreetToolName]⟩ :=
  ⟨rfl, rfl⟩

/-- Claim C4: a multi-step tool call with argument name n produces exactly
the ordered observable trace: the interim notification "First greet to n",
then the interim notification "Second greet to n", then exactly one terminal
response -- the terminal response comes after both interim notifications,
which appear in emission order.  (The tool-name hypotheses state that the
multi-greet name is truthy and is not shadowed by the single-greet branch,
as holds on every reachable server.) -/
theorem multi_greet_ordered_trace (srv : MCPServer) (n : String)
    (hm : srv.multiGreetToolName ≠ "")
    (hd : srv.multiGreetToolName ≠ srv.singleGreetToolName) :
    callToolTrace srv (some ⟨some n⟩) (some srv.multiGreetToolName) =
      [SessionEvent.logMessage ("First greet to " ++ n),
       SessionEvent.logMessage ("Second greet to " ++ n),
       SessionEvent.toolResult "Hope you enjoy your day!"] := by
  simp [callToolTrace, callToolHandler, strTruthy, jsToString, hm, hd]

/-- Witness for C4: the multi-greet call with name "arjun" on the freshly
constructed server yields the two ordered interim notifications and then
the single terminal response. -/
theorem multi_greet_ordered_trace_witness :
    callToolTrace initialServer (some ⟨some "arjun"⟩) (some initialServer.multiGreetToolName) =
      [SessionEvent.logMessage "First greet to arjun",
       SessionEvent.logMessage "Second greet to arjun",
       SessionEvent.toolResult "Hope you enjoy your day!"] := by
  simpa using multi_greet_ordered_trace initialServer "arjun" (by decide) (by decide)

/-- Claim C5: a call to the single-response tool whose name argument is
present (in the source's sense: the truthy check at line 95) returns
synchronously the one result "Hey n! Welcome to itsuki's world!" and emits
no interim notification. -/
theorem single_greet_response (srv : MCPServer) (n : String)
    (hs : srv.singleGreetToolName ≠ "") (hn : n ≠ "") :
    (callToolHandler srv (some ⟨some n⟩) (some srv.singleGreetToolName)).1 = [] ∧
    callToolTrace srv (some ⟨some n⟩) (some srv.singleGreetToolName) =
      [SessionEvent.toolResult ("Hey " ++ n ++ "! Welcome to itsuki's world!")] := by
  constructor <;> simp [callToolTrace, callToolHandler, strTruthy, jsToString, hs, hn]

/-- Witness for C5: the single-greet call with name "arjun" returns exactly
the greeting from the end-to-end scenario, with no interim notification. -/
theorem single_greet_response_witness :
    (callToolHandler initialServer (some ⟨some "arjun"⟩) (some initialServer.singleGreetToolName)).1 = [] ∧
    callToolTrace initialServer (some ⟨some "arjun"⟩) (some initialServer.singleGreetToolName) =
      [SessionEvent.toolResult "Hey arjun! Welcome to itsuki's world!"] := by
  simpa using single_greet_response initialServer "arjun" (by decide) (by decide)

/-- Claim C6: the tools-changed broadcast attempts delivery to every
session present in the table at call time (the attempt list is keyed exactly
like the table, the attempt at index i is determined by the table entry at
index i alone), and a failing transport anywhere in the table leaves the
attempts of every other session untouched (the loop over a table split
around any one entry is the split of the loops). -/
theorem broadcast_reaches_every_session (ts ts2 : List (String × Transport))
    (p : String × Transport) (i : Nat) :
    (broadcastToAll ts).map Attempt.sid = ts.map Prod.fst ∧
    (broadcastToAll ts)[i]? = (ts[i]?).map (fun q => ⟨q.1, sendNotification q.2⟩) ∧
    broadcastToAll (ts ++ p :: ts2) =
      broadcastToAll ts ++ ⟨p.1, sendNotification p.2⟩ :: broadcastToAll ts2 := by
  refine ⟨broadcastToAll_map_sid ts, ?_, ?_⟩ <;>
    simp [broadcastToAll_eq_map]

/-- Claim C7 counterexample: the periodic interval tick does not increment
any version counter, because it does not change the server state at all (it
only re-registers the already-registered list handler and broadcasts): on
the freshly constructed server the tick returns the very same state, and no
function from server states to numbers can grow by one across every tick. -/
theorem no_version_counter :
    (toolIntervalTick initialServer).1 = initialServer ∧
    ¬ ∃ version : MCPServer → Nat,
        ∀ srv : MCPServer, version (toolIntervalTick srv).1 = version srv + 1 := by
  refine ⟨rfl, ?_⟩
  rintro ⟨v, hv⟩
  have h := hv initialServer
  rw [show (toolIntervalTick initialServer).1 = initialServer from rfl] at h
  omega

/-- Claim C7 as amended: the code maintains no registry version counter;
the periodic rotation tick leaves the server state (tool names included)
unchanged -- it re-registers the tool-list handler, which is already
registered on every reachable server -- and broadcasts one tools-changed
delivery attempt per session currently in the table.  Tool names change
only when a tool-list request is served, not on the tick itself. -/
theorem interval_tick_preserves_state (srv : MCPServer)
    (h : srv.listHandlerRegistered = true) :
    (toolIntervalTick srv).1 = srv ∧
    ((toolIntervalTick srv).2).map Attempt.sid = srv.transports.map Prod.fst := by
  cases srv with
  | mk ts sg mg reg =>
      subst h
      exact ⟨rfl, broadcastToAll_map_sid ts⟩

/-- Witness for C7 as amended: the tick on the concrete one-session server
changes nothing and attempts exactly one delivery, to session "abc". -/
theorem interval_tick_preserves_state_witness :
    (toolIntervalTick serverWithAbc).1 = serverWithAbc ∧
    ((toolIntervalTick serverWithAbc).2).map Attempt.sid =
      serverWithAbc.transports.map Prod.fst :=
  interval_tick_preserves_state serverWithAbc (by decide)

/-- Claim C8 counterexample: the DELETE path's failure response is NOT a
structured JSON-RPC error body: with the unknown session id "unknown" it is
the plain-text body "Invalid or missing session ID" with status 400. -/
theorem delete_failure_plain_text :
    (handleDeleteRequest initialServer (some "unknown")).2 =
      ⟨400, Body.text "Invalid or missing session ID"⟩ ∧
    isJsonBody (handleDeleteRequest initialServer (some "unknown")).2.body = false := by
  decide

/-- Claim C8 as amended: on an unresolved session identifier, the POST and
GET paths answer with structured JSON-RPC error bodies (jsonrpc "2.0",
code -32000), while the DELETE path answers with the 400 plain-text body
"Invalid or missing session ID" -- its failure responses are not JSON-RPC
bodies. -/
theorem error_body_shape_by_verb (srv : MCPServer) (s : String) (isInit : Bool)
    (freshId errId : String)
    (hs : s ≠ "") (hl : lookupTransport srv.transports s = none) :
    (handlePostRequest srv (some s) isInit freshId errId).2 =
      ⟨400, Body.json (createErrorResponse errId "Bad Request: invalid session ID or method.")⟩ ∧
    handleGetRequest srv (some s) errId =
      ⟨400, Body.json (createErrorResponse errId "Bad Request: invalid session ID or method.")⟩ ∧
    (createErrorResponse errId "Bad Request: invalid session ID or method.").jsonrpc = "2.0" ∧
    (createErrorResponse errId "Bad Request: invalid session ID or method.").error.code = -32000 ∧
    (handleDeleteRequest srv (some s)).2 = ⟨400, Body.text "Invalid or missing session ID"⟩ := by
  have hTrue : strTruthy (some s) = true := by simp [strTruthy, hs]
  refine ⟨?_, ?_, rfl, rfl, ?_⟩ <;>
    simp [handlePostRequest, handleGetRequest, handleDeleteRequest, hTrue, hl]

/-- Witness for C8 as amended: evaluated at the unknown session id
"unknown" against the freshly constructed server. -/
theorem error_body_shape_by_verb_witness :
    (handlePostRequest initialServer (some "unknown") false "f" "e").2 =
      ⟨400, Body.json (createErrorResponse "e" "Bad Request: invalid session ID or method.")⟩ ∧
    handleGetRequest initialServer (some "unknown") "e" =
      ⟨400, Body.json (createErrorResponse "e" "Bad Request: invalid session ID or method.")⟩ ∧
    (createErrorResponse "e" "Bad Request: invalid session ID or method.").jsonrpc = "2.0" ∧
    (createErrorResponse "e" "Bad Request: invalid session ID or method.").error.code = -32000 ∧
    (handleDeleteRequest initialServer (some "unknown")).2 =
      ⟨400, Body.text "Invalid or missing session ID"⟩ :=
  error_body_shape_by_verb initialServer "unknown" false "f" "e" (by decide) (by decide)

/-- Claim C9: with an arguments object lacking the name field, the
single-response tool throws the error "Name to greet undefined." while the
multi-step tool does not fail: it emits both interim notifications and its
terminal response with the undefined value interpolated as the text
"undefined". -/
theorem missing_name_asymmetry (srv : MCPServer)
    (hs : srv.singleGreetToolName ≠ "") (hm : srv.multiGreetToolName ≠ "")
    (hd : srv.multiGreetToolName ≠ srv.singleGreetToolName) :
    callToolHandler srv (some ⟨none⟩) (some srv.singleGreetToolName) =
      ([], Except.error "Name to greet undefined.") ∧
    callToolTrace srv (some ⟨none⟩) (some srv.multiGreetToolName) =
      [SessionEvent.logMessage "First greet to undefined",
       SessionEvent.logMessage "Second greet to undefined",
       SessionEvent.toolResult "Hope you enjoy your day!"] := by
  constructor <;> simp [callToolHandler, callToolTrace, strTruthy, jsToString, hs, hm, hd]

/-- Witness for C9: both calls evaluated on the freshly constructed
server. -/
theorem missing_name_asymmetry_witness :
    callToolHandler initialServer (some ⟨none⟩) (some initialServer.singleGreetToolName) =
      ([], Except.error "Name to greet undefined.") ∧
    callToolTrace initialServer (some ⟨none⟩) (some initialServer.multiGreetToolName) =
      [SessionEvent.logMessage "First greet to undefined",
       SessionEvent.logMessage "Second greet to undefined",
       SessionEvent.toolResult "Hope you enjoy your day!"] :=
  missing_name_asymmetry initialServer (by decide) (by decide) (by decide)

/-- Claim C10: every error response the server constructs has the fixed
code -32000 and jsonrpc "2.0", its id is the freshly drawn UUID (not the
failing request's id: the constructor never receives one), and two runs of
the same failing request drawing distinct UUIDs produce distinct error
responses -- the error path is not deterministic in its full output. -/
theorem error_response_fresh_id (u1 u2 msg : String) :
    (createErrorResponse u1 msg).error.code = -32000 ∧
    (createErrorResponse u1 msg).jsonrpc = "2.0" ∧
    (createErrorResponse u1 msg).id = u1 ∧
    (u1 ≠ u2 → createErrorResponse u1 msg ≠ createErrorResponse u2 msg) := by
  refine ⟨rfl, rfl, rfl, fun h hc => h ?_⟩
  exact congrArg JSONRPCError.id hc

/-- Witness for C10: two runs of the same failing request drawing the
UUIDs "a" and "b" yield distinct error responses, both with code -32000. -/
theorem error_response_fresh_id_witness :
    (createErrorResponse "a" "m").error.code = -32000 ∧
    (createErrorResponse "a" "m").jsonrpc = "2.0" ∧
    (createErrorResponse "a" "m").id = "a" ∧
    createErrorResponse "a" "m" ≠ createErrorResponse "b" "m" := by
  have h := error_response_fresh_id "a" "b" "m"
  exact ⟨h.1, h.2.1, h.2.2.1, h.2.2.2 (by decide)⟩

end GreetMcp
